import Mathlib

/-!
Verification of the paymentd repository against its specification.

The Go sources are shallowly embedded: pure functions become Lean
functions over `List Char` (Go strings) and `Int` (Go int64/int8);
fallible or effectful calls (database, HTTP, external parsers, channel
selects) are abstracted into explicit oracle/environment values, and the
control flow of each embedded function mirrors the Go source line by
line.
-/

namespace Paymentd

/-! ## strconv.FormatInt (base 10)

Embedding of Go's `strconv.FormatInt(i, 10)`: minus sign for negative
values followed by the decimal digits, no leading zeros, `0 ↦ "0"`. -/

/-- Fuel-indexed helper so that the digit expansion is structurally
recursive and evaluates by `decide` on concrete inputs. -/
def natDecimalAux : Nat → Nat → List Char
  | 0, _ => []
  | fuel + 1, n =>
    if n < 10 then [Nat.digitChar n]
    else natDecimalAux fuel (n / 10) ++ [Nat.digitChar (n % 10)]

/-- Decimal digits of a natural number, most significant first
(`strconv` formatting of a non-negative value). -/
def natDecimal (n : Nat) : List Char := natDecimalAux (n + 1) n

/-- Embedding of `strconv.FormatInt(i, 10)`. -/
def intDecimal (i : Int) : List Char :=
  if i < 0 then '-' :: natDecimal i.natAbs else natDecimal i.toNat

theorem natDecimalAux_congr : ∀ f1 f2 n, n < f1 → n < f2 →
    natDecimalAux f1 n = natDecimalAux f2 n := by
  intro f1
  induction f1 with
  | zero => intro f2 n h1 _; omega
  | succ g1 ih =>
    intro f2 n h1 h2
    cases f2 with
    | zero => omega
    | succ g2 =>
      simp only [natDecimalAux]
      by_cases h : n < 10
      · simp [h]
      · simp only [h, if_false]
        rw [ih g2 (n / 10) (by omega) (by omega)]

theorem natDecimal_lt {n : Nat} (h : n < 10) : natDecimal n = [Nat.digitChar n] := by
  simp [natDecimal, natDecimalAux, h]

theorem natDecimal_ge {n : Nat} (h : ¬ n < 10) :
    natDecimal n = natDecimal (n / 10) ++ [Nat.digitChar (n % 10)] := by
  unfold natDecimal
  conv_lhs => rw [natDecimalAux]
  simp only [h, if_false]
  rw [natDecimalAux_congr n (n / 10 + 1) (n / 10) (by omega) (by omega)]

theorem natDecimal_ne_nil (n : Nat) : natDecimal n ≠ [] := by
  by_cases h : n < 10
  · rw [natDecimal_lt h]
    simp
  · rw [natDecimal_ge h]
    simp

theorem digitChar_inj_lt : ∀ a < 10, ∀ b < 10,
    Nat.digitChar a = Nat.digitChar b → a = b := by decide

theorem digitChar_ne_minus : ∀ a < 10, Nat.digitChar a ≠ '-' := by decide

theorem natDecimal_mem (n : Nat) : ∀ c ∈ natDecimal n, ∃ k, k < 10 ∧ c = Nat.digitChar k := by
  induction n using Nat.strong_induction_on with
  | _ n ih =>
    intro c hc
    by_cases h : n < 10
    · rw [natDecimal_lt h] at hc
      simp only [List.mem_singleton] at hc
      exact ⟨n, h, hc⟩
    · rw [natDecimal_ge h] at hc
      rcases List.mem_append.mp hc with h1 | h2
      · exact ih (n / 10) (Nat.div_lt_self (by omega) (by omega)) c h1
      · simp only [List.mem_singleton] at h2
        exact ⟨n % 10, Nat.mod_lt _ (by omega), h2⟩

theorem minus_not_mem_natDecimal (n : Nat) : '-' ∉ natDecimal n := by
  intro h
  obtain ⟨k, hk, he⟩ := natDecimal_mem n '-' h
  exact digitChar_ne_minus k hk he.symm

theorem natDecimal_inj : ∀ a b : Nat, natDecimal a = natDecimal b → a = b := by
  intro a
  induction a using Nat.strong_induction_on with
  | _ a ih =>
    intro b h
    by_cases ha : a < 10 <;> by_cases hb : b < 10
    · rw [natDecimal_lt ha, natDecimal_lt hb] at h
      simp only [List.cons.injEq, and_true] at h
      exact digitChar_inj_lt a ha b hb h
    · exfalso
      rw [natDecimal_lt ha, natDecimal_ge hb] at h
      have hlen := congrArg List.length h
      simp only [List.length_singleton, List.length_append] at hlen
      have := List.length_pos.mpr (natDecimal_ne_nil (b / 10))
      omega
    · exfalso
      rw [natDecimal_ge ha, natDecimal_lt hb] at h
      have hlen := congrArg List.length h
      simp only [List.length_singleton, List.length_append] at hlen
      have := List.length_pos.mpr (natDecimal_ne_nil (a / 10))
      omega
    · rw [natDecimal_ge ha, natDecimal_ge hb] at h
      have hrev := congrArg List.reverse h
      simp only [List.reverse_append, List.reverse_singleton, List.singleton_append,
        List.cons.injEq] at hrev
      have hmod : a % 10 = b % 10 :=
        digitChar_inj_lt _ (Nat.mod_lt _ (by omega)) _ (Nat.mod_lt _ (by omega)) hrev.1
      have hdivEq : natDecimal (a / 10) = natDecimal (b / 10) :=
        List.reverse_injective hrev.2
      have hdiv : a / 10 = b / 10 :=
        ih (a / 10) (Nat.div_lt_self (by omega) (by omega)) _ hdivEq
      omega

theorem intDecimal_inj : ∀ i j : Int, intDecimal i = intDecimal j → i = j := by
  intro i j h
  unfold intDecimal at h
  split at h <;> split at h
  · rename_i hi hj
    simp only [List.cons.injEq, true_and] at h
    have := natDecimal_inj _ _ h
    omega
  · rename_i hi hj
    exfalso
    apply minus_not_mem_natDecimal j.toNat
    rw [← h]
    exact List.mem_cons_self _ _
  · rename_i hi hj
    exfalso
    apply minus_not_mem_natDecimal i.toNat
    rw [h]
    exact List.mem_cons_self _ _
  · rename_i hi hj
    have := natDecimal_inj _ _ h
    omega

/-! ## pkg/service/api/v1/payment/init_payment.go

Go strings are `List Char`, `int64`/`int8` are `Int`.  The
`json.RequiredInt64`/`json.RequiredInt8` wrappers carry the decoded
value together with a `Set` flag. -/

structure RequiredInt64 where
  int64 : Int
  isSet : Bool
  deriving DecidableEq, Repr

structure RequiredInt8 where
  int8 : Int
  isSet : Bool
  deriving DecidableEq, Repr

/-- Embedding of the `CreatePaymentRequest` JSON struct.  `Metadata` is a
Go map (`nil` distinguished from empty), rendered as an optional
association list. -/
structure CreatePaymentRequest where
  projectKey : List Char
  ident : List Char
  amount : RequiredInt64
  subunits : RequiredInt8
  currency : List Char
  country : List Char
  paymentMethodId : Int
  locale : List Char
  callbackURL : List Char
  returnURL : List Char
  metadata : Option (List (List Char × List Char))
  timestamp : Int
  nonceValue : List Char
  hexSignature : List Char
  deriving DecidableEq, Repr

/-- Modelled from the spec: `payment.IdentMaxLen` lives in the payment
package, which is not among the given sources; §3 fixes the bound:
"`Ident` (merchant-supplied idempotency key, unique per project, ≤175
chars)". -/
def IdentMaxLen : Nat := 175

/-- Modelled from the spec: `nonce.NonceBytes` lives in the nonce
package, which is not among the given sources; §6 says the `Nonce`
length is bounded by the configured nonce width.  The concrete width is
irrelevant to the claims below. -/
def NonceBytes : Nat := 32

/-- Results of the external parsers `language.Parse` and `url.Parse`
invoked by `Validate`; these libraries are outside the repository, so
their verdicts are oracle inputs. -/
structure ParseOracle where
  localeParses : Bool
  callbackURLParses : Bool
  returnURLParses : Bool
  deriving DecidableEq, Repr

/-- The distinct `fmt.Errorf` messages `Validate` can produce, in source
order. -/
inductive ValidateErr
  | missingProjectKey | missingIdent | invalidIdent | missingAmount | invalidAmount
  | missingSubunits | missingCurrency | invalidCurrency | missingCountry | invalidCountry
  | missingTimestamp | missingNonce | invalidNonce | invalidLocale | invalidCallbackURL
  | invalidReturnURL
  deriving DecidableEq, Repr

/-- Embedding of `(*CreatePaymentRequest).Validate` (init_payment.go):
`some e` is the non-nil error returned first, `none` is nil. -/
def Validate (r : CreatePaymentRequest) (env : ParseOracle) : Option ValidateErr :=
  if r.projectKey = [] then some .missingProjectKey
  else if r.ident = [] then some .missingIdent
  else if r.ident.length > IdentMaxLen then some .invalidIdent
  else if !r.amount.isSet then some .missingAmount
  else if r.amount.int64 < 0 then some .invalidAmount
  else if !r.subunits.isSet then some .missingSubunits
  else if r.currency = [] then some .missingCurrency
  else if r.currency.length ≠ 3 then some .invalidCurrency
  else if r.country = [] then some .missingCountry
  else if r.country.length ≠ 2 then some .invalidCountry
  else if r.timestamp = 0 then some .missingTimestamp
  else if r.nonceValue = [] then some .missingNonce
  else if r.nonceValue.length > NonceBytes then some .invalidNonce
  else if r.locale ≠ [] ∧ !env.localeParses then some .invalidLocale
  else if r.callbackURL ≠ [] ∧ !env.callbackURLParses then some .invalidCallbackURL
  else if r.returnURL ≠ [] ∧ !env.returnURLParses then some .invalidReturnURL
  else none

/-- Bytewise lexicographic comparison of Go strings, as used by
`sort.Strings` on the metadata keys. -/
def lexLe : List Char → List Char → Bool
  | [], _ => true
  | _ :: _, [] => false
  | a :: as, b :: bs =>
    if a < b then true
    else if b < a then false
    else lexLe as bs

def insertByKey (kv : List Char × List Char) :
    List (List Char × List Char) → List (List Char × List Char)
  | [] => [kv]
  | x :: xs => if lexLe kv.1 x.1 then kv :: x :: xs else x :: insertByKey kv xs

def sortByKey : List (List Char × List Char) → List (List Char × List Char)
  | [] => []
  | x :: xs => insertByKey x (sortByKey xs)

/-- Modelled from the spec: `maputil.WriteSortedMap` is not among the
given sources; §4.B says "Metadata is serialized as the sequence of
`key + value` with keys sorted lexicographically". -/
def writeSortedMap (m : List (List Char × List Char)) : List Char :=
  (sortByKey m).foldl (fun acc kv => acc ++ kv.1 ++ kv.2) []

/-- Embedding of `(*CreatePaymentRequest).SignatureBaseString`
(init_payment.go): the buffer is threaded through the writes exactly in
source order. -/
def SignatureBaseString (r : CreatePaymentRequest) : List Char :=
  let buf : List Char := []
  let buf := buf ++ r.projectKey
  let buf := buf ++ r.ident
  let buf := buf ++ intDecimal r.amount.int64
  let buf := buf ++ intDecimal r.subunits.int8
  let buf := buf ++ r.currency
  let buf := buf ++ r.country
  let buf := if r.paymentMethodId ≠ 0 then buf ++ intDecimal r.paymentMethodId else buf
  let buf := if r.locale ≠ [] then buf ++ r.locale else buf
  let buf := if r.callbackURL ≠ [] then buf ++ r.callbackURL else buf
  let buf := if r.returnURL ≠ [] then buf ++ r.returnURL else buf
  let buf := match r.metadata with
    | some m => buf ++ writeSortedMap m
    | none => buf
  let buf := buf ++ intDecimal r.timestamp
  let buf := buf ++ r.nonceValue
  buf

/-- The base string as §4.B of the spec words it: the ordered
concatenation `ProjectKey, Ident, Amount, Subunits, Currency, Country,
[PaymentMethodId], [Locale], [CallbackURL], [ReturnURL], [Metadata],
Timestamp, Nonce`, optional fields emitted only when
non-empty/non-zero, no delimiters. -/
def specBaseString (r : CreatePaymentRequest) : List Char :=
  r.projectKey ++ r.ident ++ intDecimal r.amount.int64 ++ intDecimal r.subunits.int8 ++
  r.currency ++ r.country ++
  (if r.paymentMethodId ≠ 0 then intDecimal r.paymentMethodId else []) ++
  (if r.locale ≠ [] then r.locale else []) ++
  (if r.callbackURL ≠ [] then r.callbackURL else []) ++
  (if r.returnURL ≠ [] then r.returnURL else []) ++
  (match r.metadata with
    | some m => writeSortedMap m
    | none => []) ++
  intDecimal r.timestamp ++ r.nonceValue

theorem sbs_eq_spec (r : CreatePaymentRequest) :
    SignatureBaseString r = specBaseString r := by
  unfold SignatureBaseString specBaseString
  cases r.metadata <;> split_ifs <;> simp [List.append_assoc]

theorem intDecimal_ne_nil (i : Int) : intDecimal i ≠ [] := by
  unfold intDecimal
  split
  · simp
  · exact natDecimal_ne_nil _

theorem opt_emit (l : List Char) : (if l ≠ [] then l else []) = l := by
  split <;> simp_all

/-- `SignatureBaseString` split into its thirteen per-field segments,
right-associated, with the always/when-non-empty distinction for plain
string fields collapsed (emitting an empty string is a no-op). -/
theorem sbs_decomp (r : CreatePaymentRequest) :
    SignatureBaseString r =
      r.projectKey ++ (r.ident ++ (intDecimal r.amount.int64 ++
      (intDecimal r.subunits.int8 ++ (r.currency ++ (r.country ++
      ((if r.paymentMethodId ≠ 0 then intDecimal r.paymentMethodId else []) ++
      (r.locale ++ (r.callbackURL ++ (r.returnURL ++
      ((match r.metadata with
         | some m => writeSortedMap m
         | none => []) ++
      (intDecimal r.timestamp ++ r.nonceValue))))))))))) := by
  rw [sbs_eq_spec]
  unfold specBaseString
  rw [opt_emit r.locale, opt_emit r.callbackURL, opt_emit r.returnURL]
  simp [List.append_assoc]

/-- The signed fields of a `CreatePaymentRequest` (the inputs of the
base-string construction). -/
inductive SignedField
  | fProjectKey | fIdent | fAmount | fSubunits | fCurrency | fCountry
  | fPaymentMethodId | fLocale | fCallbackURL | fReturnURL | fMetadata
  | fTimestamp | fNonce
  deriving DecidableEq, Repr

/-- Two requests agree on the given signed field. -/
def fieldEq : SignedField → CreatePaymentRequest → CreatePaymentRequest → Prop
  | .fProjectKey, r1, r2 => r1.projectKey = r2.projectKey
  | .fIdent, r1, r2 => r1.ident = r2.ident
  | .fAmount, r1, r2 => r1.amount.int64 = r2.amount.int64
  | .fSubunits, r1, r2 => r1.subunits.int8 = r2.subunits.int8
  | .fCurrency, r1, r2 => r1.currency = r2.currency
  | .fCountry, r1, r2 => r1.country = r2.country
  | .fPaymentMethodId, r1, r2 => r1.paymentMethodId = r2.paymentMethodId
  | .fLocale, r1, r2 => r1.locale = r2.locale
  | .fCallbackURL, r1, r2 => r1.callbackURL = r2.callbackURL
  | .fReturnURL, r1, r2 => r1.returnURL = r2.returnURL
  | .fMetadata, r1, r2 => r1.metadata = r2.metadata
  | .fTimestamp, r1, r2 => r1.timestamp = r2.timestamp
  | .fNonce, r1, r2 => r1.nonceValue = r2.nonceValue

/-- C5 (amended): the base-string construction separates any two
requests that agree on all signed fields but one, provided the
differing field is not `Metadata` (whose serialization, like the
undelimited concatenation as a whole, can collide): if exactly one
non-Metadata signed field differs, the base strings differ. -/
theorem sbs_single_field_inj (f : SignedField) (r1 r2 : CreatePaymentRequest)
    (hf : f ≠ .fMetadata)
    (hagree : ∀ g, g ≠ f → fieldEq g r1 r2)
    (hdiff : ¬ fieldEq f r1 r2) :
    SignatureBaseString r1 ≠ SignatureBaseString r2 := by
  intro h
  apply hdiff
  rw [sbs_decomp, sbs_decomp] at h
  cases f with
  | fMetadata => exact absurd rfl hf
  | fProjectKey =>
    rw [(hagree .fIdent (by decide) : r1.ident = r2.ident),
        (hagree .fAmount (by decide) : r1.amount.int64 = r2.amount.int64),
        (hagree .fSubunits (by decide) : r1.subunits.int8 = r2.subunits.int8),
        (hagree .fCurrency (by decide) : r1.currency = r2.currency),
        (hagree .fCountry (by decide) : r1.country = r2.country),
        (hagree .fPaymentMethodId (by decide) : r1.paymentMethodId = r2.paymentMethodId),
        (hagree .fLocale (by decide) : r1.locale = r2.locale),
        (hagree .fCallbackURL (by decide) : r1.callbackURL = r2.callbackURL),
        (hagree .fReturnURL (by decide) : r1.returnURL = r2.returnURL),
        (hagree .fMetadata (by decide) : r1.metadata = r2.metadata),
        (hagree .fTimestamp (by decide) : r1.timestamp = r2.timestamp),
        (hagree .fNonce (by decide) : r1.nonceValue = r2.nonceValue)] at h
    simp only [List.append_right_inj, List.append_left_inj] at h
    exact h
  | fIdent =>
    rw [(hagree .fProjectKey (by decide) : r1.projectKey = r2.projectKey),
        (hagree .fAmount (by decide) : r1.amount.int64 = r2.amount.int64),
        (hagree .fSubunits (by decide) : r1.subunits.int8 = r2.subunits.int8),
        (hagree .fCurrency (by decide) : r1.currency = r2.currency),
        (hagree .fCountry (by decide) : r1.country = r2.country),
        (hagree .fPaymentMethodId (by decide) : r1.paymentMethodId = r2.paymentMethodId),
        (hagree .fLocale (by decide) : r1.locale = r2.locale),
        (hagree .fCallbackURL (by decide) : r1.callbackURL = r2.callbackURL),
        (hagree .fReturnURL (by decide) : r1.returnURL = r2.returnURL),
        (hagree .fMetadata (by decide) : r1.metadata = r2.metadata),
        (hagree .fTimestamp (by decide) : r1.timestamp = r2.timestamp),
        (hagree .fNonce (by decide) : r1.nonceValue = r2.nonceValue)] at h
    simp only [List.append_right_inj, List.append_left_inj] at h
    exact h
  | fAmount =>
    rw [(hagree .fProjectKey (by decide) : r1.projectKey = r2.projectKey),
        (hagree .fIdent (by decide) : r1.ident = r2.ident),
        (hagree .fSubunits (by decide) : r1.subunits.int8 = r2.subunits.int8),
        (hagree .fCurrency (by decide) : r1.currency = r2.currency),
        (hagree .fCountry (by decide) : r1.country = r2.country),
        (hagree .fPaymentMethodId (by decide) : r1.paymentMethodId = r2.paymentMethodId),
        (hagree .fLocale (by decide) : r1.locale = r2.locale),
        (hagree .fCallbackURL (by decide) : r1.callbackURL = r2.callbackURL),
        (hagree .fReturnURL (by decide) : r1.returnURL = r2.returnURL),
        (hagree .fMetadata (by decide) : r1.metadata = r2.metadata),
        (hagree .fTimestamp (by decide) : r1.timestamp = r2.timestamp),
        (hagree .fNonce (by decide) : r1.nonceValue = r2.nonceValue)] at h
    simp only [List.append_right_inj, List.append_left_inj] at h
    exact intDecimal_inj _ _ h
  | fSubunits =>
    rw [(hagree .fProjectKey (by decide) : r1.projectKey = r2.projectKey),
        (hagree .fIdent (by decide) : r1.ident = r2.ident),
        (hagree .fAmount (by decide) : r1.amount.int64 = r2.amount.int64),
        (hagree .fCurrency (by decide) : r1.currency = r2.currency),
        (hagree .fCountry (by decide) : r1.country = r2.country),
        (hagree .fPaymentMethodId (by decide) : r1.paymentMethodId = r2.paymentMethodId),
        (hagree .fLocale (by decide) : r1.locale = r2.locale),
        (hagree .fCallbackURL (by decide) : r1.callbackURL = r2.callbackURL),
        (hagree .fReturnURL (by decide) : r1.returnURL = r2.returnURL),
        (hagree .fMetadata (by decide) : r1.metadata = r2.metadata),
        (hagree .fTimestamp (by decide) : r1.timestamp = r2.timestamp),
        (hagree .fNonce (by decide) : r1.nonceValue = r2.nonceValue)] at h
    simp only [List.append_right_inj, List.append_left_inj] at h
    exact intDecimal_inj _ _ h
  | fCurrency =>
    rw [(hagree .fProjectKey (by decide) : r1.projectKey = r2.projectKey),
        (hagree .fIdent (by decide) : r1.ident = r2.ident),
        (hagree .fAmount (by decide) : r1.amount.int64 = r2.amount.int64),
        (hagree .fSubunits (by decide) : r1.subunits.int8 = r2.subunits.int8),
        (hagree .fCountry (by decide) : r1.country = r2.country),
        (hagree .fPaymentMethodId (by decide) : r1.paymentMethodId = r2.paymentMethodId),
        (hagree .fLocale (by decide) : r1.locale = r2.locale),
        (hagree .fCallbackURL (by decide) : r1.callbackURL = r2.callbackURL),
        (hagree .fReturnURL (by decide) : r1.returnURL = r2.returnURL),
        (hagree .fMetadata (by decide) : r1.metadata = r2.metadata),
        (hagree .fTimestamp (by decide) : r1.timestamp = r2.timestamp),
        (hagree .fNonce (by decide) : r1.nonceValue = r2.nonceValue)] at h
    simp only [List.append_right_inj, List.append_left_inj] at h
    exact h
  | fCountry =>
    rw [(hagree .fProjectKey (by decide) : r1.projectKey = r2.projectKey),
        (hagree .fIdent (by decide) : r1.ident = r2.ident),
        (hagree .fAmount (by decide) : r1.amount.int64 = r2.amount.int64),
        (hagree .fSubunits (by decide) : r1.subunits.int8 = r2.subunits.int8),
        (hagree .fCurrency (by decide) : r1.currency = r2.currency),
        (hagree .fPaymentMethodId (by decide) : r1.paymentMethodId = r2.paymentMethodId),
        (hagree .fLocale (by decide) : r1.locale = r2.locale),
        (hagree .fCallbackURL (by decide) : r1.callbackURL = r2.callbackURL),
        (hagree .fReturnURL (by decide) : r1.returnURL = r2.returnURL),
        (hagree .fMetadata (by decide) : r1.metadata = r2.metadata),
        (hagree .fTimestamp (by decide) : r1.timestamp = r2.timestamp),
        (hagree .fNonce (by decide) : r1.nonceValue = r2.nonceValue)] at h
    simp only [List.append_right_inj, List.append_left_inj] at h
    exact h
  | fPaymentMethodId =>
    rw [(hagree .fProjectKey (by decide) : r1.projectKey = r2.projectKey),
        (hagree .fIdent (by decide) : r1.ident = r2.ident),
        (hagree .fAmount (by decide) : r1.amount.int64 = r2.amount.int64),
        (hagree .fSubunits (by decide) : r1.subunits.int8 = r2.subunits.int8),
        (hagree .fCurrency (by decide) : r1.currency = r2.currency),
        (hagree .fCountry (by decide) : r1.country = r2.country),
        (hagree .fLocale (by decide) : r1.locale = r2.locale),
        (hagree .fCallbackURL (by decide) : r1.callbackURL = r2.callbackURL),
        (hagree .fReturnURL (by decide) : r1.returnURL = r2.returnURL),
        (hagree .fMetadata (by decide) : r1.metadata = r2.metadata),
        (hagree .fTimestamp (by decide) : r1.timestamp = r2.timestamp),
        (hagree .fNonce (by decide) : r1.nonceValue = r2.nonceValue)] at h
    simp only [List.append_right_inj, List.append_left_inj] at h
    split_ifs at h with h1 h2 h2
    · exact intDecimal_inj _ _ h
    · exact absurd h (intDecimal_ne_nil _)
    · exact absurd h.symm (intDecimal_ne_nil _)
    · show r1.paymentMethodId = r2.paymentMethodId
      omega
  | fLocale =>
    rw [(hagree .fProjectKey (by decide) : r1.projectKey = r2.projectKey),
        (hagree .fIdent (by decide) : r1.ident = r2.ident),
        (hagree .fAmount (by decide) : r1.amount.int64 = r2.amount.int64),
        (hagree .fSubunits (by decide) : r1.subunits.int8 = r2.subunits.int8),
        (hagree .fCurrency (by decide) : r1.currency = r2.currency),
        (hagree .fCountry (by decide) : r1.country = r2.country),
        (hagree .fPaymentMethodId (by decide) : r1.paymentMethodId = r2.paymentMethodId),
        (hagree .fCallbackURL (by decide) : r1.callbackURL = r2.callbackURL),
        (hagree .fReturnURL (by decide) : r1.returnURL = r2.returnURL),
        (hagree .fMetadata (by decide) : r1.metadata = r2.metadata),
        (hagree .fTimestamp (by decide) : r1.timestamp = r2.timestamp),
        (hagree .fNonce (by decide) : r1.nonceValue = r2.nonceValue)] at h
    simp only [List.append_right_inj, List.append_left_inj] at h
    exact h
  | fCallbackURL =>
    rw [(hagree .fProjectKey (by decide) : r1.projectKey = r2.projectKey),
        (hagree .fIdent (by decide) : r1.ident = r2.ident),
        (hagree .fAmount (by decide) : r1.amount.int64 = r2.amount.int64),
        (hagree .fSubunits (by decide) : r1.subunits.int8 = r2.subunits.int8),
        (hagree .fCurrency (by decide) : r1.currency = r2.currency),
        (hagree .fCountry (by decide) : r1.country = r2.country),
        (hagree .fPaymentMethodId (by decide) : r1.paymentMethodId = r2.paymentMethodId),
        (hagree .fLocale (by decide) : r1.locale = r2.locale),
        (hagree .fReturnURL (by decide) : r1.returnURL = r2.returnURL),
        (hagree .fMetadata (by decide) : r1.metadata = r2.metadata),
        (hagree .fTimestamp (by decide) : r1.timestamp = r2.timestamp),
        (hagree .fNonce (by decide) : r1.nonceValue = r2.nonceValue)] at h
    simp only [List.append_right_inj, List.append_left_inj] at h
    exact h
  | fReturnURL =>
    rw [(hagree .fProjectKey (by decide) : r1.projectKey = r2.projectKey),
        (hagree .fIdent (by decide) : r1.ident = r2.ident),
        (hagree .fAmount (by decide) : r1.amount.int64 = r2.amount.int64),
        (hagree .fSubunits (by decide) : r1.subunits.int8 = r2.subunits.int8),
        (hagree .fCurrency (by decide) : r1.currency = r2.currency),
        (hagree .fCountry (by decide) : r1.country = r2.country),
        (hagree .fPaymentMethodId (by decide) : r1.paymentMethodId = r2.paymentMethodId),
        (hagree .fLocale (by decide) : r1.locale = r2.locale),
        (hagree .fCallbackURL (by decide) : r1.callbackURL = r2.callbackURL),
        (hagree .fMetadata (by decide) : r1.metadata = r2.metadata),
        (hagree .fTimestamp (by decide) : r1.timestamp = r2.timestamp),
        (hagree .fNonce (by decide) : r1.nonceValue = r2.nonceValue)] at h
    simp only [List.append_right_inj, List.append_left_inj] at h
    exact h
  | fTimestamp =>
    rw [(hagree .fProjectKey (by decide) : r1.projectKey = r2.projectKey),
        (hagree .fIdent (by decide) : r1.ident = r2.ident),
        (hagree .fAmount (by decide) : r1.amount.int64 = r2.amount.int64),
        (hagree .fSubunits (by decide) : r1.subunits.int8 = r2.subunits.int8),
        (hagree .fCurrency (by decide) : r1.currency = r2.currency),
        (hagree .fCountry (by decide) : r1.country = r2.country),
        (hagree .fPaymentMethodId (by decide) : r1.paymentMethodId = r2.paymentMethodId),
        (hagree .fLocale (by decide) : r1.locale = r2.locale),
        (hagree .fCallbackURL (by decide) : r1.callbackURL = r2.callbackURL),
        (hagree .fReturnURL (by decide) : r1.returnURL = r2.returnURL),
        (hagree .fMetadata (by decide) : r1.metadata = r2.metadata),
        (hagree .fNonce (by decide) : r1.nonceValue = r2.nonceValue)] at h
    simp only [List.append_right_inj, List.append_left_inj] at h
    exact intDecimal_inj _ _ h
  | fNonce =>
    rw [(hagree .fProjectKey (by decide) : r1.projectKey = r2.projectKey),
        (hagree .fIdent (by decide) : r1.ident = r2.ident),
        (hagree .fAmount (by decide) : r1.amount.int64 = r2.amount.int64),
        (hagree .fSubunits (by decide) : r1.subunits.int8 = r2.subunits.int8),
        (hagree .fCurrency (by decide) : r1.currency = r2.currency),
        (hagree .fCountry (by decide) : r1.country = r2.country),
        (hagree .fPaymentMethodId (by decide) : r1.paymentMethodId = r2.paymentMethodId),
        (hagree .fLocale (by decide) : r1.locale = r2.locale),
        (hagree .fCallbackURL (by decide) : r1.callbackURL = r2.callbackURL),
        (hagree .fReturnURL (by decide) : r1.returnURL = r2.returnURL),
        (hagree .fMetadata (by decide) : r1.metadata = r2.metadata),
        (hagree .fTimestamp (by decide) : r1.timestamp = r2.timestamp)] at h
    simp only [List.append_right_inj, List.append_left_inj] at h
    exact h

/-! ## pkg/paymentd data model

The `payment` and `payment_method` packages are referenced by the given
service sources but are not themselves among them; their data shapes are
modelled from the spec (§3, §4.D). -/

/-- Modelled from the spec: `payment.PaymentStatus*` constants of the
payment package (§3: Status ∈ {Open, Cancelled, Paid, Authorized,
Failed} plus `None` for an uninitialized payment). -/
inductive PaymentStatus
  | statusNone | statusOpen | statusCancelled | statusPaid | statusAuthorized | statusFailed
  deriving DecidableEq, Repr

/-- The payment `Config` fields inspected by the service: append-only
versioned optional attributes (§3). -/
structure PaymentConfig where
  paymentMethodID : Option Int
  country : Option (List Char)
  locale : Option (List Char)
  deriving DecidableEq, Repr

/-- Modelled from the spec: `payment.Config.IsConfigured` lives in the
payment package (not among the given sources); `IsProcessablePayment`'s
doc says "all required fields are present". -/
def PaymentConfig.IsConfigured (c : PaymentConfig) : Bool :=
  c.paymentMethodID.isSome && c.country.isSome && c.locale.isSome

structure Payment where
  projectID : Int
  paymentID : Int
  ident : List Char
  amount : Int
  subunits : Int
  currency : List Char
  status : PaymentStatus
  config : PaymentConfig
  deriving DecidableEq, Repr

structure PaymentTransaction where
  projectID : Int
  paymentID : Int
  timestamp : Int
  amount : Int
  subunits : Int
  currency : List Char
  status : PaymentStatus
  deriving DecidableEq, Repr

/-- Modelled from the spec: `payment.Payment.NewTransaction` lives in
the payment package (not among the given sources); per §4.D it builds
the tentative `PaymentTransaction` carrying the target status and the
payment's amount fields, stamped with the current time. -/
def Payment.NewTransaction (p : Payment) (status : PaymentStatus) (now : Int) :
    PaymentTransaction :=
  { projectID := p.projectID, paymentID := p.paymentID, timestamp := now,
    amount := p.amount, subunits := p.subunits, currency := p.currency, status := status }

/-- Modelled from the spec: payment-method states (§3: `Draft`,
`Active`, `Inactive`, `Disabled`; effective status is the latest). -/
inductive MethodStatus
  | draft | active | inactive | disabled
  deriving DecidableEq, Repr

structure PaymentMethod where
  methodID : Int
  projectID : Int
  methodStatus : MethodStatus
  deriving DecidableEq, Repr

/-- Modelled from the spec: `payment_method.Method.Active` (§3: "Only
`Active` methods accept new payments"). -/
def PaymentMethod.Active (m : PaymentMethod) : Bool := m.methodStatus = .active

/-- Modelled from the spec: `payment_method.Method.Disabled` (§3:
"`Disabled` also blocks cancel/capture transitions"). -/
def PaymentMethod.Disabled (m : PaymentMethod) : Bool := m.methodStatus = .disabled

/-! ## pkg/service/payment (the payment service)

Embedding of the second document of
`src/pkg/service/payment/service_test.go`, which holds the service
implementation: the `errorID` constants, the intent pipeline
(`handleIntent`, `Intent*`), `CreatePayment` and the commit handle. -/

/-- The service's `errorID` constants, in source order. -/
inductive ErrorID
  | errDB | errDBLockTimeout | errDuplicateIdent | errPaymentCallbackConfig
  | errPaymentMethodNotFound | errPaymentMethodConflict | errPaymentMethodInactive
  | errPaymentMethodDisabled | errInternal | errIntentTimeout | errIntentNotAllowed
  deriving DecidableEq, Repr

/-- A Go `error` value as seen by the payment service: one of its own
`errorID` constants or an opaque error propagated from a collaborator
(method lookup, context cancellation, a PRE-intent worker). -/
inductive GoError
  | svc (e : ErrorID)
  | external (code : Nat)
  deriving DecidableEq, Repr

/-- `notificationBufferSize` constant from the source. -/
def notificationBufferSize : Nat := 16

/-- `commitIntentTimeout = time.Minute`, in nanoseconds (Go
`time.Duration` is an int64 nanosecond count). -/
def commitIntentTimeout : Int := 60 * 1000000000

/-- Outcome of the PRE-phase `select` in `handleIntent`: which of the
three events wins the race (service-context cancellation, the first
worker error, the `timeout` timer).  The winner is an oracle input; the
carried `GoError` is `ctx.Err()` resp. the first error received on the
result channel. -/
inductive PreOutcome
  | ctxCancelled (e : GoError)
  | workerErr (e : GoError)
  | timedOut
  deriving DecidableEq, Repr

/-- The service's registered intent workers (`s.preIntents`,
`s.postIntents`, `s.commitIntents`), workers identified by opaque
ids. -/
structure IntentWorkers where
  preIntents : List Nat
  postIntents : List Nat
  commitIntents : List Nat
  deriving DecidableEq, Repr

/-- Ambient inputs of one `handleIntent` run. `deadlineExceeded` stands
for "the service context has a deadline and `time.Now().Add(timeout)` is
after it". -/
structure IntentEnv where
  deadlineExceeded : Bool
  preOutcome : PreOutcome
  now : Int
  deriving DecidableEq, Repr

/-- The `(PaymentTransaction, CommitIntentFunc, error)` triple returned
by `handleIntent`/`Intent*` (`none` = Go `nil`; `commitMade` = the
returned `CommitIntentFunc` is non-nil), plus whether the PRE `done`
channel was closed. -/
structure IntentResult where
  tx : Option PaymentTransaction
  commitMade : Bool
  err : Option GoError
  doneClosed : Bool
  deriving DecidableEq, Repr

/-- Embedding of `Service.handleIntent`: the deadline check, the PRE
select (only when PRE workers are registered), and the construction of
the commit handle (non-nil exactly when commit workers are
registered).  The POST phase never touches the returned triple. -/
def handleIntent (s : IntentWorkers) (env : IntentEnv) (paymentTx : PaymentTransaction) :
    IntentResult :=
  if env.deadlineExceeded then ⟨none, false, some (.svc .errIntentTimeout), false⟩
  else
    match s.preIntents with
    | [] => ⟨some paymentTx, !s.commitIntents.isEmpty, none, false⟩
    | _ :: _ =>
      match env.preOutcome with
      | .ctxCancelled e => ⟨none, false, some e, true⟩
      | .workerErr e => ⟨none, false, some e, true⟩
      | .timedOut => ⟨some paymentTx, !s.commitIntents.isEmpty, none, true⟩

/-- Embedding of `Service.IsProcessablePayment`. -/
def IsProcessablePayment (p : Payment) : Bool :=
  if !p.config.IsConfigured then false
  else if !p.config.country.isSome then false
  else if !p.config.locale.isSome then false
  else if !p.config.paymentMethodID.isSome then false
  else true

/-- Result of `payment_method.PaymentMethodByIDDB` for the payment's
configured method id — a database read, hence an oracle. -/
structure ServiceEnv where
  methodLookup : Except GoError PaymentMethod
  intentEnv : IntentEnv

/-- Embedding of `Service.IntentOpen`: processability check (no Status
check in the source), method must be `Active`, tentative transaction
with status `Open` and negated amount. -/
def IntentOpen (s : IntentWorkers) (env : ServiceEnv) (p : Payment) : IntentResult :=
  if !IsProcessablePayment p then ⟨none, false, some (.svc .errIntentNotAllowed), false⟩
  else
    match env.methodLookup with
    | .error e => ⟨none, false, some e, false⟩
    | .ok meth =>
      if !meth.Active then ⟨none, false, some (.svc .errPaymentMethodInactive), false⟩
      else
        let paymentTx := p.NewTransaction .statusOpen env.intentEnv.now
        let paymentTx := { paymentTx with amount := paymentTx.amount * -1 }
        handleIntent s env.intentEnv paymentTx

/-- Embedding of `Service.IntentCancel`. -/
def IntentCancel (s : IntentWorkers) (env : ServiceEnv) (p : Payment) : IntentResult :=
  if p.status ≠ .statusOpen then ⟨none, false, some (.svc .errIntentNotAllowed), false⟩
  else
    match env.methodLookup with
    | .error e => ⟨none, false, some e, false⟩
    | .ok meth =>
      if meth.Disabled then ⟨none, false, some (.svc .errPaymentMethodDisabled), false⟩
      else
        let paymentTx := p.NewTransaction .statusCancelled env.intentEnv.now
        let paymentTx := { paymentTx with amount := 0 }
        handleIntent s env.intentEnv paymentTx

/-- Embedding of `Service.IntentPaid`: note the source admits only
`PaymentStatusOpen` as source state. -/
def IntentPaid (s : IntentWorkers) (env : ServiceEnv) (p : Payment) : IntentResult :=
  if p.status ≠ .statusOpen then ⟨none, false, some (.svc .errIntentNotAllowed), false⟩
  else
    match env.methodLookup with
    | .error e => ⟨none, false, some e, false⟩
    | .ok meth =>
      if meth.Disabled then ⟨none, false, some (.svc .errPaymentMethodDisabled), false⟩
      else
        let paymentTx := p.NewTransaction .statusPaid env.intentEnv.now
        handleIntent s env.intentEnv paymentTx

/-- Embedding of `Service.IntentAuthorized`. -/
def IntentAuthorized (s : IntentWorkers) (env : ServiceEnv) (p : Payment) : IntentResult :=
  if p.status ≠ .statusOpen then ⟨none, false, some (.svc .errIntentNotAllowed), false⟩
  else
    match env.methodLookup with
    | .error e => ⟨none, false, some e, false⟩
    | .ok meth =>
      if meth.Disabled then ⟨none, false, some (.svc .errPaymentMethodDisabled), false⟩
      else
        let paymentTx := p.NewTransaction .statusAuthorized env.intentEnv.now
        let paymentTx := { paymentTx with amount := 0 }
        handleIntent s env.intentEnv paymentTx

/-- The commit goroutine of `handleIntent`: a `select` between the
commit channel and a `commitIntentTimeout` timer.  The oracle is the
instant (nanoseconds after the intent returned) at which the caller
invokes the handle, `none` when it never does.  On commit the goroutine
fans out to the commit workers registered at commit time, spawning each
exactly once. -/
def commitFanout (commitWorkersAtCommitTime : List Nat) (invokeTimeNs : Option Int) :
    List Nat :=
  match invokeTimeNs with
  | some t => if t < commitIntentTimeout then commitWorkersAtCommitTime else []
  | none => []

/-- Go channel close-state.  Per the Go language runtime, `close` on an
already-closed channel is a runtime fault ("close of closed
channel"). -/
inductive ChanState
  | chanOpen | chanClosed
  deriving DecidableEq, Repr

inductive RuntimeFault
  | closeOfClosedChannel
  deriving DecidableEq, Repr

def closeChan : ChanState → Except RuntimeFault ChanState
  | .chanOpen => .ok .chanClosed
  | .chanClosed => .error .closeOfClosedChannel

/-- The commit handle built in `handleIntent` is the closure
`func() { close(commit) }`: invoking it closes the commit channel. -/
def commitIntentFuncInvoke (c : ChanState) : Except RuntimeFault ChanState := closeChan c

/-- Result of the callback-configuration phase of `CreatePayment`
(`p.Config.HasCallback()` plus the project-key lookup): which branch the
source takes. -/
inductive CallbackCheck
  | noCallback
  | keyNotFound
  | keyLookupErr
  | keyProject (projectID : Int)
  deriving DecidableEq, Repr

/-- How `payment.InsertPaymentTx` fails (if at all): Go distinguishes a
`*mysql.MySQLError` (carrying a numeric code) from any other error. -/
inductive InsertOutcome
  | insertOk
  | mysqlNumber (n : Nat)
  | otherInsertErr
  deriving DecidableEq, Repr

/-- Oracle inputs of one `CreatePayment` call.  `identExists` is whether
a Payment with the same `(ProjectID, Ident)` is actually in the
database; `probeFails` is whether the duplicate-check read
`PaymentByProjectIDAndIdentTx` itself errors (with something other than
`ErrPaymentNotFound`) — the read is a fallible database operation.
When the probe succeeds it reports `identExists`: a payment for a found
row (`existErr == nil`), `ErrPaymentNotFound` otherwise. -/
structure CreatePaymentEnv where
  callback : CallbackCheck
  insert : InsertOutcome
  identExists : Bool
  probeFails : Bool
  setConfig : Option ErrorID
  setMetadata : Option ErrorID
  deriving DecidableEq, Repr

/-- The insert-and-after phase of `CreatePayment`: mysql deadlock code
1213 is promoted to `ErrDBLockTimeout`; otherwise the duplicate-ident
probe runs: a probe error (`existErr != nil && existErr !=
ErrPaymentNotFound`) yields `ErrDB`, a found row yields
`ErrDuplicateIdent`, not-found yields `ErrDB`. -/
def createPaymentAfterCallback (env : CreatePaymentEnv) : Option ErrorID :=
  match env.insert with
  | .insertOk =>
    match env.setConfig with
    | some e => some e
    | none =>
      match env.setMetadata with
      | some e => some e
      | none => none
  | .mysqlNumber n =>
    if n = 1213 then some .errDBLockTimeout
    else if env.probeFails then some .errDB
    else if env.identExists then some .errDuplicateIdent
    else some .errDB
  | .otherInsertErr =>
    if env.probeFails then some .errDB
    else if env.identExists then some .errDuplicateIdent
    else some .errDB

/-- Embedding of `Service.CreatePayment`. -/
def CreatePayment (p : Payment) (env : CreatePaymentEnv) : Option ErrorID :=
  match env.callback with
  | .keyNotFound => some .errPaymentCallbackConfig
  | .keyLookupErr => some .errDB
  | .keyProject pid =>
    if pid ≠ p.projectID then some .errPaymentCallbackConfig
    else createPaymentAfterCallback env
  | .noCallback => createPaymentAfterCallback env

/-! ## pkg/service/provider/paypal_rest/init.go — `Driver.doInit`

The background goroutine that POSTs the payment-creation request to
PayPal and ingests its response.  HTTP and JSON collaborators are
oracles; the embedding records, in order, the externally visible actions
the function performs. -/

namespace PaypalRest

/-- The driver's error values (`ErrDatabase`, `ErrInternal`, `ErrHTTP`,
`ErrProvider`) plus opaque errors from collaborators. -/
inductive PayPalErr
  | errDatabase | errInternal | errHTTP | errProvider | externalErr (code : Nat)
  deriving DecidableEq, Repr

/-- Externally visible actions of one `doInit` run, in program order:
sends on the `errors` channel, `setPayPalErrorResponse` calls (which per
§4.E append an error ProviderTransaction and drive the Payment to
`Failed` via the intent pipeline; that function is not among the given
sources and is modelled from the spec as this single action), the
successful `InsertTransactionDB` of the ordinary
`TransactionTypeCreatePaymentResponse` row, and the closing of the
`errors` channel. -/
inductive InitEvent
  | errorSent (e : PayPalErr)
  | errorResponseSet (hasBody : Bool)
  | responseTxInserted
  | errorsChannelClosed
  deriving DecidableEq, Repr

/-- The provider's HTTP response as far as `doInit` inspects it. -/
structure HTTPResponse where
  statusCode : Nat
  bodyReadOk : Bool
  deriving DecidableEq, Repr

/-- Oracle inputs of one `doInit` run. -/
structure DoInitEnv where
  authTransportOk : Bool
  authOk : Bool
  post : Option HTTPResponse
  decodeOk : Bool
  linksMarshalOk : Bool
  dataMarshalOk : Bool
  insertOk : Bool
  deriving DecidableEq, Repr

/-- Embedding of `Driver.doInit` (init.go lines 181–292).  Mirrors the
source control flow; in particular the JSON-decode-failure branch emits
its error but does NOT return, so execution falls through to the
response-transaction construction. -/
def doInit (env : DoInitEnv) : List InitEvent :=
  if !env.authTransportOk then [.errorSent (.externalErr 0)]
  else if !env.authOk then [.errorSent (.externalErr 0)]
  else
    match env.post with
    | none => [.errorSent (.externalErr 0)]
    | some resp =>
      if resp.statusCode ≠ 201 ∧ resp.statusCode ≠ 200 then
        [.errorResponseSet false, .errorSent .errHTTP]
      else if !resp.bodyReadOk then
        [.errorResponseSet false, .errorSent .errHTTP]
      else
        (if !env.decodeOk then [.errorResponseSet true, .errorSent .errProvider] else []) ++
        (if !env.linksMarshalOk then [.errorResponseSet true, .errorSent .errProvider]
         else if !env.dataMarshalOk then [.errorResponseSet true, .errorSent .errProvider]
         else if !env.insertOk then [.errorResponseSet true, .errorSent .errProvider]
         else [.responseTxInserted, .errorsChannelClosed])

end PaypalRest

/-! ## Concrete inputs used by counterexamples and witnesses -/

def cActiveMethod : PaymentMethod :=
  { methodID := 1, projectID := 1, methodStatus := .active }

def cConfigFull : PaymentConfig :=
  { paymentMethodID := some 1, country := some ['D', 'E'], locale := some ['e', 'n'] }

/-- A fully configured (processable) payment whose current status is
`Paid`. -/
def cPaymentPaid : Payment :=
  { projectID := 1, paymentID := 7, ident := ['o', 'r', 'd'], amount := 1000, subunits := 2,
    currency := ['E', 'U', 'R'], status := .statusPaid, config := cConfigFull }

def cPaymentOpen : Payment := { cPaymentPaid with status := .statusOpen }

def cPaymentAuth : Payment := { cPaymentPaid with status := .statusAuthorized }

/-- A payment with no configured payment method (not processable). -/
def cPaymentNoConfig : Payment :=
  { projectID := 1, paymentID := 7, ident := ['o', 'r', 'd'], amount := 1000, subunits := 2,
    currency := ['E', 'U', 'R'], status := .statusNone,
    config := { paymentMethodID := none, country := none, locale := none } }

def cIntentEnvQuiet : IntentEnv :=
  { deadlineExceeded := false, preOutcome := .timedOut, now := 1 }

def cEnvOk : ServiceEnv :=
  { methodLookup := .ok cActiveMethod, intentEnv := cIntentEnvQuiet }

def cNoWorkers : IntentWorkers :=
  { preIntents := [], postIntents := [], commitIntents := [] }

/-- The default service state: `NewService` registers the notification
worker as a commit-intent worker. -/
def cNotifyWorkers : IntentWorkers :=
  { preIntents := [], postIntents := [], commitIntents := [0] }

def cPreWorkers : IntentWorkers :=
  { preIntents := [1], postIntents := [], commitIntents := [0] }

def cVetoEnv : IntentEnv :=
  { deadlineExceeded := false, preOutcome := .workerErr (.external 7), now := 1 }

def cTxProbe : PaymentTransaction :=
  { projectID := 1, paymentID := 7, timestamp := 1, amount := 1000, subunits := 2,
    currency := ['E', 'U', 'R'], status := .statusOpen }

/-! ## Claims -/

/-- C1 (counterexample): `IntentOpen` performs no Status check.  On a
processable payment whose current status is `Paid` — not an allowed
source state for the Open intent per the §4.D table — `IntentOpen` does
not return `IntentNotAllowed` and does produce a tentative
`PaymentTransaction`, refuting the claim as stated. -/
theorem C1_counterexample :
    cPaymentPaid.status = .statusPaid ∧
    IsProcessablePayment cPaymentPaid = true ∧
    (IntentOpen cNoWorkers cEnvOk cPaymentPaid).err ≠ some (.svc .errIntentNotAllowed) ∧
    (IntentOpen cNoWorkers cEnvOk cPaymentPaid).tx ≠ none := by decide

/-- C1 (amended): `IntentCancel`, `IntentPaid` and `IntentAuthorized`
return `IntentNotAllowed` with nil transaction and nil commit handle
whenever the current status is not an allowed source state per the §4.D
table; `IntentOpen` instead performs no status check and returns
`IntentNotAllowed` (nil, nil) exactly when the payment is not
processable. -/
theorem C1_amended (s : IntentWorkers) (env : ServiceEnv) (p : Payment) :
    (p.status ≠ .statusOpen →
      IntentCancel s env p = ⟨none, false, some (.svc .errIntentNotAllowed), false⟩ ∧
      IntentAuthorized s env p = ⟨none, false, some (.svc .errIntentNotAllowed), false⟩) ∧
    (p.status ≠ .statusOpen → p.status ≠ .statusAuthorized →
      IntentPaid s env p = ⟨none, false, some (.svc .errIntentNotAllowed), false⟩) ∧
    (IsProcessablePayment p = false →
      IntentOpen s env p = ⟨none, false, some (.svc .errIntentNotAllowed), false⟩) := by
  refine ⟨fun h => ⟨?_, ?_⟩, fun h _ => ?_, fun h => ?_⟩
  · simp [IntentCancel, h]
  · simp [IntentAuthorized, h]
  · simp [IntentPaid, h]
  · simp [IntentOpen, h]

/-- C1 (witness for the amended claim) at concrete inputs: a `Paid`
payment is rejected by `IntentCancel`, and an unconfigured payment is
rejected by `IntentOpen`. -/
theorem C1_amended_witness :
    IntentCancel cNoWorkers cEnvOk cPaymentPaid =
      ⟨none, false, some (.svc .errIntentNotAllowed), false⟩ ∧
    IntentOpen cNoWorkers cEnvOk cPaymentNoConfig =
      ⟨none, false, some (.svc .errIntentNotAllowed), false⟩ :=
  ⟨((C1_amended cNoWorkers cEnvOk cPaymentPaid).1 (by decide)).1,
   (C1_amended cNoWorkers cEnvOk cPaymentNoConfig).2.2 (by decide)⟩

/-- C2 (counterexample): a payment in status `Authorized` with an
active (hence not disabled) method is NOT accepted by `IntentPaid`: the
source admits only `Open` as source state, so the call returns
`IntentNotAllowed`, refuting the "Open or Authorized" claim. -/
theorem C2_counterexample :
    cPaymentAuth.status = .statusAuthorized ∧
    cActiveMethod.Disabled = false ∧
    IntentPaid cNoWorkers cEnvOk cPaymentAuth =
      ⟨none, false, some (.svc .errIntentNotAllowed), false⟩ := by decide

/-- C2 (amended): for a processable payment whose current status is
`Open` (only — `Authorized` is rejected) and whose method is not
disabled, `IntentPaid`, absent a deadline overrun and with no PRE
workers registered, accepts the intent: it returns the tentative
transaction with target status `Paid` and amount `Payment.Amount`,
a nil error, and a commit handle exactly when commit workers are
registered (as they are by default). -/
theorem C2_amended (s : IntentWorkers) (env : ServiceEnv) (p : Payment)
    (meth : PaymentMethod)
    (hopen : p.status = .statusOpen)
    (hlookup : env.methodLookup = .ok meth)
    (hdis : meth.Disabled = false)
    (hdl : env.intentEnv.deadlineExceeded = false)
    (hpre : s.preIntents = []) :
    IntentPaid s env p =
      ⟨some (p.NewTransaction .statusPaid env.intentEnv.now),
       !s.commitIntents.isEmpty, none, false⟩ ∧
    (p.NewTransaction .statusPaid env.intentEnv.now).amount = p.amount ∧
    (p.NewTransaction .statusPaid env.intentEnv.now).status = .statusPaid := by
  refine ⟨?_, rfl, rfl⟩
  simp [IntentPaid, hopen, hlookup, hdis, handleIntent, hdl, hpre]

/-- C2 (witness for the amended claim) at concrete inputs: an `Open`
payment under the default service state yields a `Paid` transaction
over the payment's amount, a non-nil commit handle and a nil error. -/
theorem C2_amended_witness :
    (IntentPaid cNotifyWorkers cEnvOk cPaymentOpen).err = none ∧
    (IntentPaid cNotifyWorkers cEnvOk cPaymentOpen).commitMade = true ∧
    (IntentPaid cNotifyWorkers cEnvOk cPaymentOpen).tx.map PaymentTransaction.amount =
      some 1000 ∧
    (IntentPaid cNotifyWorkers cEnvOk cPaymentOpen).tx.map PaymentTransaction.status =
      some .statusPaid := by
  obtain ⟨h1, _, _⟩ :=
    C2_amended cNotifyWorkers cEnvOk cPaymentOpen cActiveMethod (by decide) rfl (by decide)
      rfl rfl
  rw [h1]
  decide

/-- C3: in `handleIntent` with at least one registered PreIntentWorker,
when the PRE select resolves to a worker error (i.e. some worker sent a
non-nil error before the per-intent timeout and before service
cancellation), the `done` channel is closed and that first error is
returned with nil transaction and nil commit handle.  The race winner
is the `PreOutcome` oracle of the embedding. -/
theorem C3_pre_veto (s : IntentWorkers) (env : IntentEnv) (tx0 : PaymentTransaction)
    (e : GoError)
    (hpre : s.preIntents ≠ [])
    (hdl : env.deadlineExceeded = false)
    (houtcome : env.preOutcome = .workerErr e) :
    handleIntent s env tx0 = ⟨none, false, some e, true⟩ := by
  cases hsp : s.preIntents with
  | nil => exact absurd hsp hpre
  | cons a l => simp [handleIntent, hdl, houtcome, hsp]

/-- C3 (witness) at concrete inputs. -/
theorem C3_pre_veto_witness :
    handleIntent cPreWorkers cVetoEnv cTxProbe = ⟨none, false, some (.external 7), true⟩ :=
  C3_pre_veto cPreWorkers cVetoEnv cTxProbe (.external 7) (by decide) rfl rfl

/-- C4: the commit goroutine fans out to every commit worker registered
at commit time, each exactly once, when the handle is invoked within
`commitIntentTimeout`; when the handle is not invoked within that
window no worker is invoked; and the timeout constant is 60 seconds
(in nanoseconds). -/
theorem C4_commit_fanout (ws : List Nat) (t : Int) (w : Nat) :
    (t < commitIntentTimeout →
      (commitFanout ws (some t)).count w = ws.count w) ∧
    (commitIntentTimeout ≤ t → commitFanout ws (some t) = []) ∧
    commitFanout ws none = [] ∧
    commitIntentTimeout = 60 * 1000000000 := by
  refine ⟨fun h => ?_, fun h => ?_, rfl, rfl⟩
  · simp [commitFanout, h]
  · simp [commitFanout, not_lt.mpr h]

/-- C4 (witness) at concrete inputs: two registered workers, a commit
at 5 ns (each invoked once), and a never-invoked handle (none
invoked). -/
theorem C4_commit_fanout_witness :
    (commitFanout [3, 4] (some 5)).count 3 = [3, 4].count 3 ∧
    commitFanout [3, 4] none = [] :=
  ⟨(C4_commit_fanout [3, 4] 5 3).1 (by decide),
   (C4_commit_fanout [3, 4] 5 3).2.2.1⟩

/-- A baseline well-formed request. -/
def cReqBase : CreatePaymentRequest :=
  { projectKey := ['a', 'b'], ident := ['c'], amount := { int64 := 0, isSet := true },
    subunits := { int8 := 2, isSet := true }, currency := ['E', 'U', 'R'],
    country := ['D', 'E'], paymentMethodId := 0, locale := [], callbackURL := [],
    returnURL := [], metadata := none, timestamp := 1, nonceValue := ['n'],
    hexSignature := [] }

/-- `cReqBase` with the `ProjectKey`/`Ident` boundary shifted: ProjectKey
`"a"`, Ident `"bc"` instead of `"ab"`/`"c"`. -/
def cReqShifted : CreatePaymentRequest :=
  { projectKey := ['a'], ident := ['b', 'c'], amount := { int64 := 0, isSet := true },
    subunits := { int8 := 2, isSet := true }, currency := ['E', 'U', 'R'],
    country := ['D', 'E'], paymentMethodId := 0, locale := [], callbackURL := [],
    returnURL := [], metadata := none, timestamp := 1, nonceValue := ['n'],
    hexSignature := [] }

/-- `cReqBase` with a different Amount. -/
def cReqAmount5 : CreatePaymentRequest :=
  { projectKey := ['a', 'b'], ident := ['c'], amount := { int64 := 5, isSet := true },
    subunits := { int8 := 2, isSet := true }, currency := ['E', 'U', 'R'],
    country := ['D', 'E'], paymentMethodId := 0, locale := [], callbackURL := [],
    returnURL := [], metadata := none, timestamp := 1, nonceValue := ['n'],
    hexSignature := [] }

/-- C5 (counterexample): the undelimited concatenation is NOT injective
on the tuple of signed fields: `cReqBase` and `cReqShifted` differ in
the signed field `ProjectKey` (and `Ident`) yet produce the same base
string. -/
theorem C5_counterexample :
    cReqBase.projectKey ≠ cReqShifted.projectKey ∧
    SignatureBaseString cReqBase = SignatureBaseString cReqShifted := by decide

/-- C5 (witness for the amended claim): two requests differing exactly
in `Amount` produce different base strings. -/
theorem C5_amended_witness :
    SignatureBaseString cReqBase ≠ SignatureBaseString cReqAmount5 :=
  sbs_single_field_inj .fAmount cReqBase cReqAmount5 (by decide)
    (fun g hg => by cases g <;> first | rfl | exact absurd rfl hg)
    (fun hh => absurd (show (0 : Int) = 5 from hh) (by decide))

/-- C6: `SignatureBaseString` produces exactly the §4.B layout: the
undelimited concatenation of ProjectKey, Ident, decimal Amount, decimal
Subunits, Currency, Country, then PaymentMethodId only if non-zero,
Locale/CallbackURL/ReturnURL each only if non-empty, the sorted
key+value Metadata serialization if Metadata is present, then decimal
Timestamp and Nonce. -/
theorem C6_base_string_layout (r : CreatePaymentRequest) :
    SignatureBaseString r = specBaseString r := sbs_eq_spec r

/-- A `CreatePayment` run in which the insert fails, a duplicate row
does exist, but the duplicate-check read itself errors. -/
def cCreateEnvProbeFail : CreatePaymentEnv :=
  { callback := .noCallback, insert := .otherInsertErr, identExists := true,
    probeFails := true, setConfig := none, setMetadata := none }

/-- C7 (counterexample): when the payment insert fails and a Payment
with the same `(ProjectID, Ident)` does exist, but the duplicate-check
read `PaymentByProjectIDAndIdentTx` itself errors, `CreatePayment`
returns generic `ErrDB` — so a duplicate insert CAN surface as generic
`ErrDB`, refuting the claim's "never" conjunct. -/
theorem C7_counterexample :
    cCreateEnvProbeFail.identExists = true ∧
    cCreateEnvProbeFail.insert ≠ .insertOk ∧
    CreatePayment cPaymentOpen cCreateEnvProbeFail = some .errDB := by decide

/-- C7 (amended): when the payment insert of `CreatePayment` fails, the
returned error is one of the three pairwise distinct classes:
`ErrDBLockTimeout` for mysql deadlock code 1213; otherwise, provided
the duplicate-check read succeeds, `ErrDuplicateIdent` when a Payment
with the same `(ProjectID, Ident)` exists and `ErrDB` when none does;
and `ErrDB` whenever the duplicate-check read itself fails — even if a
duplicate exists.  A duplicate insert therefore never surfaces as
generic `ErrDB` only under a successful duplicate-check read. -/
theorem C7_insert_error_classes (p : Payment) (env : CreatePaymentEnv)
    (hcb : env.callback = .noCallback ∨ env.callback = .keyProject p.projectID) :
    (env.insert = .mysqlNumber 1213 → CreatePayment p env = some .errDBLockTimeout) ∧
    (∀ n, env.insert = .mysqlNumber n → n ≠ 1213 → env.probeFails = false →
      env.identExists = true → CreatePayment p env = some .errDuplicateIdent) ∧
    (env.insert = .otherInsertErr → env.probeFails = false → env.identExists = true →
      CreatePayment p env = some .errDuplicateIdent) ∧
    (∀ n, env.insert = .mysqlNumber n → n ≠ 1213 → env.probeFails = false →
      env.identExists = false → CreatePayment p env = some .errDB) ∧
    (env.insert = .otherInsertErr → env.probeFails = false → env.identExists = false →
      CreatePayment p env = some .errDB) ∧
    (env.insert ≠ .insertOk → env.insert ≠ .mysqlNumber 1213 → env.probeFails = true →
      CreatePayment p env = some .errDB) ∧
    (env.insert ≠ .insertOk →
      CreatePayment p env = some .errDBLockTimeout ∨
      CreatePayment p env = some .errDuplicateIdent ∨
      CreatePayment p env = some .errDB) ∧
    (env.insert ≠ .insertOk → env.probeFails = false → env.identExists = true →
      CreatePayment p env ≠ some .errDB) ∧
    (ErrorID.errDBLockTimeout ≠ .errDuplicateIdent ∧
      ErrorID.errDBLockTimeout ≠ .errDB ∧ ErrorID.errDuplicateIdent ≠ .errDB) := by
  have hred : CreatePayment p env = createPaymentAfterCallback env := by
    rcases hcb with h | h <;> simp [CreatePayment, h]
  rw [hred]
  refine ⟨fun h => ?_, fun n h hne hpf hex => ?_, fun h hpf hex => ?_,
    fun n h hne hpf hex => ?_, fun h hpf hex => ?_, fun h h13 hpf => ?_, fun h => ?_,
    fun h hpf hex => ?_, by decide⟩
  · simp [createPaymentAfterCallback, h]
  · simp [createPaymentAfterCallback, h, hne, hpf, hex]
  · simp [createPaymentAfterCallback, h, hpf, hex]
  · simp [createPaymentAfterCallback, h, hne, hpf, hex]
  · simp [createPaymentAfterCallback, h, hpf, hex]
  · cases henv : env.insert with
    | insertOk => exact absurd henv h
    | mysqlNumber n =>
      have hne : n ≠ 1213 := by
        intro hc
        rw [hc] at henv
        exact h13 henv
      simp [createPaymentAfterCallback, henv, hne, hpf]
    | otherInsertErr =>
      simp [createPaymentAfterCallback, henv, hpf]
  · cases henv : env.insert with
    | insertOk => exact absurd henv h
    | mysqlNumber n =>
      simp only [createPaymentAfterCallback, henv]
      split_ifs <;> simp
    | otherInsertErr =>
      simp only [createPaymentAfterCallback, henv]
      split_ifs <;> simp
  · cases henv : env.insert with
    | insertOk => exact absurd henv h
    | mysqlNumber n =>
      simp only [createPaymentAfterCallback, henv, hpf, hex]
      split_ifs <;> simp_all
    | otherInsertErr =>
      simp only [createPaymentAfterCallback, henv, hpf, hex]
      split_ifs <;> simp_all

def cCreateEnvDup : CreatePaymentEnv :=
  { callback := .noCallback, insert := .otherInsertErr, identExists := true,
    probeFails := false, setConfig := none, setMetadata := none }

/-- C7 (witness for the amended claim): a failed insert with an
existing duplicate ident and a successful duplicate-check read surfaces
as `ErrDuplicateIdent`. -/
theorem C7_witness :
    CreatePayment cPaymentOpen cCreateEnvDup = some .errDuplicateIdent :=
  (C7_insert_error_classes cPaymentOpen cCreateEnvDup (Or.inl rfl)).2.2.1 rfl rfl rfl

/-- `doInit` oracle: HTTP 200 whose body fails JSON decoding, all later
collaborators succeeding. -/
def c8FailingEnv : PaypalRest.DoInitEnv :=
  { authTransportOk := true, authOk := true,
    post := some { statusCode := 200, bodyReadOk := true },
    decodeOk := false, linksMarshalOk := true, dataMarshalOk := true, insertOk := true }

/-- `doInit` oracle: HTTP 500. -/
def c8HTTPErrEnv : PaypalRest.DoInitEnv :=
  { authTransportOk := true, authOk := true,
    post := some { statusCode := 500, bodyReadOk := true },
    decodeOk := true, linksMarshalOk := true, dataMarshalOk := true, insertOk := true }

/-- C8: on the decode-failure input, `doInit` appends the error
ProviderTransaction and emits `ErrProvider`, but — lacking a `return`
in that branch — falls through and ALSO inserts the ordinary
`CreatePaymentResponse` ProviderTransaction, contradicting the claimed
short-circuit (the spec's §9 design note flags exactly this as a bug).
The non-2xx half of the claim does hold: an HTTP 500 stops after the
error ProviderTransaction. -/
theorem C8_decode_failure_falls_through :
    PaypalRest.doInit c8FailingEnv =
      [.errorResponseSet true, .errorSent .errProvider,
       .responseTxInserted, .errorsChannelClosed] ∧
    PaypalRest.InitEvent.responseTxInserted ∈ PaypalRest.doInit c8FailingEnv ∧
    PaypalRest.doInit c8HTTPErrEnv = [.errorResponseSet false, .errorSent .errHTTP] := by
  refine ⟨rfl, by decide, rfl⟩

/-- C9 (counterexample): the commit handle is `func() { close(commit) }`
with no double-invocation guard: invoking it a second time closes an
already-closed channel, a Go runtime fault — refuting the claim that a
second invocation is safe. -/
theorem C9_counterexample :
    (commitIntentFuncInvoke .chanOpen).bind commitIntentFuncInvoke =
      .error .closeOfClosedChannel := rfl

/-- C9 (amended): the commit handle is a one-shot trigger (the first
invocation closes the commit channel) but it does NOT guard against
double invocation: a second invocation faults with close-of-closed-
channel, so callers must invoke it at most once. -/
theorem C9_one_shot_unguarded :
    commitIntentFuncInvoke .chanOpen = .ok .chanClosed ∧
    commitIntentFuncInvoke .chanClosed = .error .closeOfClosedChannel := ⟨rfl, rfl⟩

/-- C10: `Validate` returns a non-nil error for every request whose
Amount is set to a negative value, regardless of the remaining fields
and of the external parser verdicts. -/
theorem C10_negative_amount (r : CreatePaymentRequest) (env : ParseOracle)
    (hset : r.amount.isSet = true) (hneg : r.amount.int64 < 0) :
    (Validate r env).isSome = true := by
  by_cases h1 : r.projectKey = []
  · simp [Validate, h1]
  · by_cases h2 : r.ident = []
    · simp [Validate, h1, h2]
    · by_cases h3 : r.ident.length > IdentMaxLen
      · simp [Validate, h1, h2, h3]
      · simp [Validate, h1, h2, h3, hset, hneg]

def c10Req : CreatePaymentRequest :=
  { projectKey := ['a', 'b'], ident := ['c'], amount := { int64 := -50, isSet := true },
    subunits := { int8 := 2, isSet := true }, currency := ['E', 'U', 'R'],
    country := ['D', 'E'], paymentMethodId := 0, locale := [], callbackURL := [],
    returnURL := [], metadata := none, timestamp := 1, nonceValue := ['n'],
    hexSignature := [] }

def c10Oracle : ParseOracle :=
  { localeParses := true, callbackURLParses := true, returnURLParses := true }

/-- C10 (witness): a concrete request with Amount −50 is rejected. -/
theorem C10_witness : (Validate c10Req c10Oracle).isSome = true :=
  C10_negative_amount c10Req c10Oracle rfl (by decide)

end Paymentd
